import Mathlib

/-!
Verification of the flux model in `astrodyl/models/flux.py`, the analytical
synchrotron spectral/flux-integration engine after Sari et al. (1998).

The Python floats are modelled as real numbers; the Python power operator on
nonnegative bases is `Real.rpow`; Python exceptions are modelled with an
explicit error type on the operations that can raise.  Field names and method
names follow the source.
-/

noncomputable section

/-- Errors that the Python code can raise, together with the error classes
named by the specification.  The source raises only `ValueError` (with the
given message) and the interpreter-level `ZeroDivisionError`; the constructors
`invalidParameterError`, `invalidIntervalError` and `degenerateExponentError`
are modelled from the spec: its section 7 error taxonomy names these three
classes, but none of them appears anywhere in the source. -/
inductive PyErr where
  | valueError (msg : String)
  | zeroDivisionError
  | invalidParameterError
  | invalidIntervalError
  | degenerateExponentError
  deriving DecidableEq

/-- Python float division: raises `ZeroDivisionError` when the denominator is
zero, otherwise returns the quotient. -/
def pydiv (a b : ℝ) : Except PyErr ℝ :=
  if b = 0 then .error .zeroDivisionError else .ok (a / b)

/-- The `Flux` super class of `flux.py`: the characteristic break frequencies,
peak flux, and spectral index, in the order they are assigned in
`Flux.__init__`. -/
structure Flux where
  peak_flux : ℝ
  cooling_frequency : ℝ
  synchrotron_frequency : ℝ
  spectral_index : ℝ

/-- The `Flux.__init__` constructor.  With all four keyword arguments present
it only stores them; it performs no validation of any kind, so it never
raises for numeric inputs. -/
def mkFlux (peak_flux cooling_frequency synchrotron_frequency spectral_index : ℝ) :
    Except PyErr Flux :=
  .ok ⟨peak_flux, cooling_frequency, synchrotron_frequency, spectral_index⟩

/-- First return expression of `FluxSlowCoolingSpectral.flux`
(line 53 of `flux.py`): taken when `frequency <= synchrotron_frequency`. -/
def slowFluxBranch1 (m : Flux) (frequency : ℝ) : ℝ :=
  m.peak_flux * (frequency / m.synchrotron_frequency) ^ ((1 : ℝ) / 3)

/-- Second return expression of `FluxSlowCoolingSpectral.flux`
(line 56 of `flux.py`): taken when `frequency < cooling_frequency`.  By Python
operator precedence the source line
`peak_flux * (frequency / synchrotron_frequency) ** -(spectral_index - 1) / 2`
raises the ratio to the power `-(p - 1)` and then divides the whole product
by two. -/
def slowFluxBranch2 (m : Flux) (frequency : ℝ) : ℝ :=
  m.peak_flux * (frequency / m.synchrotron_frequency) ^ (-(m.spectral_index - 1)) / 2

/-- Third return expression of `FluxSlowCoolingSpectral.flux`
(lines 59-61 of `flux.py`): taken when `frequency >= cooling_frequency`. -/
def slowFluxBranch3 (m : Flux) (frequency : ℝ) : ℝ :=
  m.peak_flux * ((m.cooling_frequency / m.synchrotron_frequency) ^ (-(m.spectral_index - 1) / 2)) *
    ((frequency / m.cooling_frequency) ^ (-m.spectral_index / 2))

/-- The `FluxSlowCoolingSpectral.flux` property.  The three guards of the
source are exhaustive over a linear order, so the final
`if frequency >= cooling_frequency` is an `else`. -/
def FluxSlowCoolingSpectral.flux (m : Flux) (frequency : ℝ) : ℝ :=
  if frequency ≤ m.synchrotron_frequency then slowFluxBranch1 m frequency
  else if frequency < m.cooling_frequency then slowFluxBranch2 m frequency
  else slowFluxBranch3 m frequency

/-- First return expression of `FluxFastCoolingSpectral.flux`
(line 181 of `flux.py`): taken when `frequency <= cooling_frequency`. -/
def fastFluxBranch1 (m : Flux) (frequency : ℝ) : ℝ :=
  m.peak_flux * (frequency / m.cooling_frequency) ^ ((1 : ℝ) / 3)

/-- Second return expression of `FluxFastCoolingSpectral.flux`
(line 184 of `flux.py`): taken when `frequency < synchrotron_frequency`. -/
def fastFluxBranch2 (m : Flux) (frequency : ℝ) : ℝ :=
  m.peak_flux * (frequency / m.cooling_frequency) ^ ((-1 : ℝ) / 2)

/-- Third return expression of `FluxFastCoolingSpectral.flux`
(lines 187-188 of `flux.py`): taken when `frequency >= synchrotron_frequency`. -/
def fastFluxBranch3 (m : Flux) (frequency : ℝ) : ℝ :=
  m.peak_flux * ((m.synchrotron_frequency / m.cooling_frequency) ^ ((-1 : ℝ) / 2)) *
    ((frequency / m.synchrotron_frequency) ^ (-m.spectral_index / 2))

/-- The `FluxFastCoolingSpectral.flux` property. -/
def FluxFastCoolingSpectral.flux (m : Flux) (frequency : ℝ) : ℝ :=
  if frequency ≤ m.cooling_frequency then fastFluxBranch1 m frequency
  else if frequency < m.synchrotron_frequency then fastFluxBranch2 m frequency
  else fastFluxBranch3 m frequency

/-- `FluxSlowCoolingIntegrated.integrate_segment_f` (lines 128-129). -/
def FluxSlowCoolingIntegrated.integrate_segment_f (m : Flux) (lower upper : ℝ) : ℝ :=
  3 / 4 * (m.peak_flux / m.synchrotron_frequency ^ ((1 : ℝ) / 3)) *
    (upper ^ ((4 : ℝ) / 3) - lower ^ ((4 : ℝ) / 3))

/-- `FluxSlowCoolingIntegrated.integrate_segment_g` (lines 141-143). -/
def FluxSlowCoolingIntegrated.integrate_segment_g (m : Flux) (lower upper : ℝ) : ℝ :=
  2 / (3 - m.spectral_index) * m.peak_flux *
    (1 / m.synchrotron_frequency ^ (-(m.spectral_index - 1) / 2)) *
    (upper ^ ((3 - m.spectral_index) / 2) - lower ^ ((3 - m.spectral_index) / 2))

/-- `FluxSlowCoolingIntegrated.integrate_segment_h` (lines 155-158). -/
def FluxSlowCoolingIntegrated.integrate_segment_h (m : Flux) (lower upper : ℝ) : ℝ :=
  m.peak_flux * (2 / (2 - m.spectral_index)) *
    ((m.cooling_frequency / m.synchrotron_frequency) ^ (-(m.spectral_index - 1) / 2)) *
    (m.cooling_frequency ^ (m.spectral_index / 2)) *
    (upper ^ ((2 - m.spectral_index) / 2) - lower ^ ((2 - m.spectral_index) / 2))

/-- `FluxSlowCoolingIntegrated.integrate` (lines 83-116), with the stored
`lower_frequency` and `upper_frequency` passed explicitly. -/
def slowIntegrate (m : Flux) (lower upper : ℝ) : ℝ :=
  if upper ≤ m.synchrotron_frequency then
    FluxSlowCoolingIntegrated.integrate_segment_f m lower upper
  else if upper ≤ m.cooling_frequency then
    if lower < m.synchrotron_frequency then
      FluxSlowCoolingIntegrated.integrate_segment_f m lower m.synchrotron_frequency +
        FluxSlowCoolingIntegrated.integrate_segment_g m m.synchrotron_frequency upper
    else
      FluxSlowCoolingIntegrated.integrate_segment_g m lower upper
  else if lower < m.synchrotron_frequency then
    FluxSlowCoolingIntegrated.integrate_segment_f m lower m.synchrotron_frequency +
      FluxSlowCoolingIntegrated.integrate_segment_g m m.synchrotron_frequency m.cooling_frequency +
      FluxSlowCoolingIntegrated.integrate_segment_h m m.cooling_frequency upper
  else if lower < m.cooling_frequency then
    FluxSlowCoolingIntegrated.integrate_segment_g m lower m.cooling_frequency +
      FluxSlowCoolingIntegrated.integrate_segment_h m m.cooling_frequency upper
  else
    FluxSlowCoolingIntegrated.integrate_segment_h m lower upper

/-- `FluxFastCoolingIntegrated.integrate_segment_b` (lines 255-256). -/
def FluxFastCoolingIntegrated.integrate_segment_b (m : Flux) (lower upper : ℝ) : ℝ :=
  3 / 4 * (m.peak_flux / m.cooling_frequency ^ ((1 : ℝ) / 3)) *
    (upper ^ ((4 : ℝ) / 3) - lower ^ ((4 : ℝ) / 3))

/-- `FluxFastCoolingIntegrated.integrate_segment_c` (lines 268-269). -/
def FluxFastCoolingIntegrated.integrate_segment_c (m : Flux) (lower upper : ℝ) : ℝ :=
  2 * (m.peak_flux / m.cooling_frequency ^ (-((1 : ℝ) / 2))) *
    (upper ^ ((1 : ℝ) / 2) - lower ^ ((1 : ℝ) / 2))

/-- `FluxFastCoolingIntegrated.integrate_segment_d` (lines 281-284). -/
def FluxFastCoolingIntegrated.integrate_segment_d (m : Flux) (lower upper : ℝ) : ℝ :=
  m.peak_flux * (2 / (2 - m.spectral_index)) *
    ((m.synchrotron_frequency / m.cooling_frequency) ^ ((-1 : ℝ) / 2)) *
    (m.synchrotron_frequency ^ (m.spectral_index / 2)) *
    (upper ^ ((2 - m.spectral_index) / 2) - lower ^ ((2 - m.spectral_index) / 2))

/-- `FluxFastCoolingIntegrated.integrate` (lines 210-243), with the stored
bounds passed explicitly. -/
def fastIntegrate (m : Flux) (lower upper : ℝ) : ℝ :=
  if upper ≤ m.cooling_frequency then
    FluxFastCoolingIntegrated.integrate_segment_b m lower upper
  else if upper ≤ m.synchrotron_frequency then
    if lower < m.cooling_frequency then
      FluxFastCoolingIntegrated.integrate_segment_b m lower m.cooling_frequency +
        FluxFastCoolingIntegrated.integrate_segment_c m m.cooling_frequency upper
    else
      FluxFastCoolingIntegrated.integrate_segment_c m lower upper
  else if lower < m.cooling_frequency then
    FluxFastCoolingIntegrated.integrate_segment_b m lower m.cooling_frequency +
      FluxFastCoolingIntegrated.integrate_segment_c m m.cooling_frequency m.synchrotron_frequency +
      FluxFastCoolingIntegrated.integrate_segment_d m m.synchrotron_frequency upper
  else if lower < m.synchrotron_frequency then
    FluxFastCoolingIntegrated.integrate_segment_c m lower m.synchrotron_frequency +
      FluxFastCoolingIntegrated.integrate_segment_d m m.synchrotron_frequency upper
  else
    FluxFastCoolingIntegrated.integrate_segment_d m lower upper

/-- The instance state of an integrated-flux object after a successful
`__init__`: the inherited `Flux` fields together with the stored frequency
bounds. -/
structure IntegratedFlux where
  toFlux : Flux
  lower_frequency : ℝ
  upper_frequency : ℝ

/-- `FluxSlowCoolingIntegrated.__init__` (lines 65-81): after the super call,
raises `ValueError` when `bounds` does not have exactly two elements, then
raises `ValueError` when the two bounds are in reverse order, and otherwise
stores them. -/
def FluxSlowCoolingIntegrated.init (bounds : List ℝ) (kw : Flux) :
    Except PyErr IntegratedFlux :=
  match bounds with
  | [a, b] =>
    if a > b then .error (.valueError "Argument `bounds` was provided in reverse order.")
    else .ok ⟨kw, a, b⟩
  | _ => .error (.valueError "Argument `bounds` must have exactly two elements.")

/-- `FluxFastCoolingIntegrated.__init__` (lines 192-208): identical checks to
the slow cooling variant. -/
def FluxFastCoolingIntegrated.init (bounds : List ℝ) (kw : Flux) :
    Except PyErr IntegratedFlux :=
  match bounds with
  | [a, b] =>
    if a > b then .error (.valueError "Argument `bounds` was provided in reverse order.")
    else .ok ⟨kw, a, b⟩
  | _ => .error (.valueError "Argument `bounds` must have exactly two elements.")

/-- `FluxSlowCoolingIntegrated.integrate_segment_h` with the Python evaluation
of its two non-literal divisions made explicit: Python evaluates
`peak_flux * (2 / (2 - spectral_index)) * ...` left to right, so the division
`2 / (2 - spectral_index)` raises `ZeroDivisionError` before anything else
when `spectral_index` equals two. -/
def FluxSlowCoolingIntegrated.integrate_segment_hE (m : Flux) (lower upper : ℝ) :
    Except PyErr ℝ :=
  match pydiv 2 (2 - m.spectral_index) with
  | .error e => .error e
  | .ok q =>
    match pydiv m.cooling_frequency m.synchrotron_frequency with
    | .error e => .error e
    | .ok r =>
      .ok (m.peak_flux * q * (r ^ (-(m.spectral_index - 1) / 2)) *
        (m.cooling_frequency ^ (m.spectral_index / 2)) *
        (upper ^ ((2 - m.spectral_index) / 2) - lower ^ ((2 - m.spectral_index) / 2)))

/-- `FluxFastCoolingIntegrated.integrate_segment_d` with the Python evaluation
of its two non-literal divisions made explicit, as in the slow cooling
variant. -/
def FluxFastCoolingIntegrated.integrate_segment_dE (m : Flux) (lower upper : ℝ) :
    Except PyErr ℝ :=
  match pydiv 2 (2 - m.spectral_index) with
  | .error e => .error e
  | .ok q =>
    match pydiv m.synchrotron_frequency m.cooling_frequency with
    | .error e => .error e
    | .ok r =>
      .ok (m.peak_flux * q * (r ^ ((-1 : ℝ) / 2)) *
        (m.synchrotron_frequency ^ (m.spectral_index / 2)) *
        (upper ^ ((2 - m.spectral_index) / 2) - lower ^ ((2 - m.spectral_index) / 2)))

/-- `FluxSlowCoolingIntegrated.integrate_segment_f` with its one non-literal
Python division (`peak_flux / synchrotron_frequency ** (1 / 3)`) modelled by
`pydiv`; the power operator stays the total `rpow` model. -/
def FluxSlowCoolingIntegrated.integrate_segment_fE (m : Flux) (lower upper : ℝ) :
    Except PyErr ℝ :=
  match pydiv m.peak_flux (m.synchrotron_frequency ^ ((1 : ℝ) / 3)) with
  | .error e => .error e
  | .ok q => .ok (3 / 4 * q * (upper ^ ((4 : ℝ) / 3) - lower ^ ((4 : ℝ) / 3)))

/-- `FluxSlowCoolingIntegrated.integrate_segment_g` with its two non-literal
Python divisions (`2 / (3 - spectral_index)`, evaluated first, then
`1 / synchrotron_frequency ** (-(spectral_index - 1) / 2)`) modelled by
`pydiv` in Python evaluation order. -/
def FluxSlowCoolingIntegrated.integrate_segment_gE (m : Flux) (lower upper : ℝ) :
    Except PyErr ℝ :=
  match pydiv 2 (3 - m.spectral_index) with
  | .error e => .error e
  | .ok q =>
    match pydiv 1 (m.synchrotron_frequency ^ (-(m.spectral_index - 1) / 2)) with
    | .error e => .error e
    | .ok r =>
      .ok (q * m.peak_flux * r *
        (upper ^ ((3 - m.spectral_index) / 2) - lower ^ ((3 - m.spectral_index) / 2)))

/-- `FluxFastCoolingIntegrated.integrate_segment_b` with its one non-literal
Python division (`peak_flux / cooling_frequency ** (1 / 3)`) modelled by
`pydiv`. -/
def FluxFastCoolingIntegrated.integrate_segment_bE (m : Flux) (lower upper : ℝ) :
    Except PyErr ℝ :=
  match pydiv m.peak_flux (m.cooling_frequency ^ ((1 : ℝ) / 3)) with
  | .error e => .error e
  | .ok q => .ok (3 / 4 * q * (upper ^ ((4 : ℝ) / 3) - lower ^ ((4 : ℝ) / 3)))

/-- `FluxFastCoolingIntegrated.integrate_segment_c` with its one non-literal
Python division (`peak_flux / cooling_frequency ** -(1 / 2)`) modelled by
`pydiv`. -/
def FluxFastCoolingIntegrated.integrate_segment_cE (m : Flux) (lower upper : ℝ) :
    Except PyErr ℝ :=
  match pydiv m.peak_flux (m.cooling_frequency ^ (-((1 : ℝ) / 2))) with
  | .error e => .error e
  | .ok q => .ok (2 * q * (upper ^ ((1 : ℝ) / 2) - lower ^ ((1 : ℝ) / 2)))

/-- Python addition of two fallible summands: the left summand is evaluated
first and its error propagates before the right one is looked at, as in
Python's left-to-right evaluation of `a + b`. -/
def pyAdd (x y : Except PyErr ℝ) : Except PyErr ℝ :=
  match x with
  | .error e => .error e
  | .ok a =>
    match y with
    | .error e => .error e
    | .ok b => .ok (a + b)

/-- `FluxSlowCoolingIntegrated.integrate` with the Python division errors kept:
the same five-way dispatch as `slowIntegrate`, but each segment call is the
fallible variant and multi-segment sums propagate the first error from the
left, exactly as Python evaluates `f(...) + g(...) + h(...)`. -/
def slowIntegrateE (m : Flux) (lower upper : ℝ) : Except PyErr ℝ :=
  if upper ≤ m.synchrotron_frequency then
    FluxSlowCoolingIntegrated.integrate_segment_fE m lower upper
  else if upper ≤ m.cooling_frequency then
    if lower < m.synchrotron_frequency then
      pyAdd (FluxSlowCoolingIntegrated.integrate_segment_fE m lower m.synchrotron_frequency)
        (FluxSlowCoolingIntegrated.integrate_segment_gE m m.synchrotron_frequency upper)
    else
      FluxSlowCoolingIntegrated.integrate_segment_gE m lower upper
  else if lower < m.synchrotron_frequency then
    pyAdd
      (pyAdd (FluxSlowCoolingIntegrated.integrate_segment_fE m lower m.synchrotron_frequency)
        (FluxSlowCoolingIntegrated.integrate_segment_gE m m.synchrotron_frequency
          m.cooling_frequency))
      (FluxSlowCoolingIntegrated.integrate_segment_hE m m.cooling_frequency upper)
  else if lower < m.cooling_frequency then
    pyAdd (FluxSlowCoolingIntegrated.integrate_segment_gE m lower m.cooling_frequency)
      (FluxSlowCoolingIntegrated.integrate_segment_hE m m.cooling_frequency upper)
  else
    FluxSlowCoolingIntegrated.integrate_segment_hE m lower upper

/-- `FluxFastCoolingIntegrated.integrate` with the Python division errors
kept, mirroring `slowIntegrateE`. -/
def fastIntegrateE (m : Flux) (lower upper : ℝ) : Except PyErr ℝ :=
  if upper ≤ m.cooling_frequency then
    FluxFastCoolingIntegrated.integrate_segment_bE m lower upper
  else if upper ≤ m.synchrotron_frequency then
    if lower < m.cooling_frequency then
      pyAdd (FluxFastCoolingIntegrated.integrate_segment_bE m lower m.cooling_frequency)
        (FluxFastCoolingIntegrated.integrate_segment_cE m m.cooling_frequency upper)
    else
      FluxFastCoolingIntegrated.integrate_segment_cE m lower upper
  else if lower < m.cooling_frequency then
    pyAdd
      (pyAdd (FluxFastCoolingIntegrated.integrate_segment_bE m lower m.cooling_frequency)
        (FluxFastCoolingIntegrated.integrate_segment_cE m m.cooling_frequency
          m.synchrotron_frequency))
      (FluxFastCoolingIntegrated.integrate_segment_dE m m.synchrotron_frequency upper)
  else if lower < m.synchrotron_frequency then
    pyAdd (FluxFastCoolingIntegrated.integrate_segment_cE m lower m.synchrotron_frequency)
      (FluxFastCoolingIntegrated.integrate_segment_dE m m.synchrotron_frequency upper)
  else
    FluxFastCoolingIntegrated.integrate_segment_dE m lower upper

/-- Constructing a `FluxSlowCoolingIntegrated` object and calling its
`integrate` method on the stored state, Python errors kept throughout. -/
def slowIntegratedRunE (bounds : List ℝ) (kw : Flux) : Except PyErr ℝ :=
  match FluxSlowCoolingIntegrated.init bounds kw with
  | .error e => .error e
  | .ok s => slowIntegrateE s.toFlux s.lower_frequency s.upper_frequency

/-- Constructing a `FluxFastCoolingIntegrated` object and calling its
`integrate` method on the stored state, Python errors kept throughout. -/
def fastIntegratedRunE (bounds : List ℝ) (kw : Flux) : Except PyErr ℝ :=
  match FluxFastCoolingIntegrated.init bounds kw with
  | .error e => .error e
  | .ok s => fastIntegrateE s.toFlux s.lower_frequency s.upper_frequency

/-- The closed form the spec gives for the first (low frequency, one third
power) segment integral, written with the break frequency called `break_low`
as in the spec: three quarters times peak flux over the cube root of the
break, times the difference of the four-thirds powers of the bounds. -/
def specSegmentOneIntegral (peak break_low lower upper : ℝ) : ℝ :=
  3 / 4 * (peak / break_low ^ ((1 : ℝ) / 3)) *
    (upper ^ ((4 : ℝ) / 3) - lower ^ ((4 : ℝ) / 3))

/-- The middle branch formula the spec states for the slow cooling pointwise
evaluator: peak flux times the frequency ratio raised to `-(p - 1) / 2`, the
division by two applying inside the exponent. -/
def specSlowMidFlux (m : Flux) (frequency : ℝ) : ℝ :=
  m.peak_flux * (frequency / m.synchrotron_frequency) ^ (-(m.spectral_index - 1) / 2)

/-- Cumulative antiderivative for the slow cooling piecewise integrand,
segment by segment, used to show the partition-and-sum integrator is an
antiderivative difference. -/
def slowPsi (m : Flux) (x : ℝ) : ℝ :=
  if x ≤ m.synchrotron_frequency then
    FluxSlowCoolingIntegrated.integrate_segment_f m 0 x
  else if x ≤ m.cooling_frequency then
    FluxSlowCoolingIntegrated.integrate_segment_f m 0 m.synchrotron_frequency +
      FluxSlowCoolingIntegrated.integrate_segment_g m m.synchrotron_frequency x
  else
    FluxSlowCoolingIntegrated.integrate_segment_f m 0 m.synchrotron_frequency +
      FluxSlowCoolingIntegrated.integrate_segment_g m m.synchrotron_frequency m.cooling_frequency +
      FluxSlowCoolingIntegrated.integrate_segment_h m m.cooling_frequency x

/-- Cumulative antiderivative for the fast cooling piecewise integrand. -/
def fastPsi (m : Flux) (x : ℝ) : ℝ :=
  if x ≤ m.cooling_frequency then
    FluxFastCoolingIntegrated.integrate_segment_b m 0 x
  else if x ≤ m.synchrotron_frequency then
    FluxFastCoolingIntegrated.integrate_segment_b m 0 m.cooling_frequency +
      FluxFastCoolingIntegrated.integrate_segment_c m m.cooling_frequency x
  else
    FluxFastCoolingIntegrated.integrate_segment_b m 0 m.cooling_frequency +
      FluxFastCoolingIntegrated.integrate_segment_c m m.cooling_frequency m.synchrotron_frequency +
      FluxFastCoolingIntegrated.integrate_segment_d m m.synchrotron_frequency x

set_option maxHeartbeats 1000000 in
theorem slowIntegrate_eq_psi (m : Flux)
    (hmc : m.synchrotron_frequency ≤ m.cooling_frequency)
    {l u : ℝ} (hlu : l ≤ u) :
    slowIntegrate m l u = slowPsi m u - slowPsi m l := by
  unfold slowIntegrate slowPsi FluxSlowCoolingIntegrated.integrate_segment_f
    FluxSlowCoolingIntegrated.integrate_segment_g FluxSlowCoolingIntegrated.integrate_segment_h
  split_ifs <;>
    first
      | linarith
      | ring1
      | (have e1 : l = m.synchrotron_frequency := le_antisymm (by linarith) (by linarith)
         subst e1
         ring1)
      | (have e1 : l = m.cooling_frequency := le_antisymm (by linarith) (by linarith)
         subst e1
         ring1)
      | (have e1 : l = m.synchrotron_frequency := le_antisymm (by linarith) (by linarith)
         subst e1
         have e2 : m.cooling_frequency = m.synchrotron_frequency :=
           le_antisymm (by linarith) (by linarith)
         rw [e2]
         ring1)

set_option maxHeartbeats 1000000 in
theorem fastIntegrate_eq_psi (m : Flux)
    (hmc : m.cooling_frequency ≤ m.synchrotron_frequency)
    {l u : ℝ} (hlu : l ≤ u) :
    fastIntegrate m l u = fastPsi m u - fastPsi m l := by
  unfold fastIntegrate fastPsi FluxFastCoolingIntegrated.integrate_segment_b
    FluxFastCoolingIntegrated.integrate_segment_c FluxFastCoolingIntegrated.integrate_segment_d
  split_ifs <;>
    first
      | linarith
      | ring1
      | (have e1 : l = m.cooling_frequency := le_antisymm (by linarith) (by linarith)
         subst e1
         ring1)
      | (have e1 : l = m.synchrotron_frequency := le_antisymm (by linarith) (by linarith)
         subst e1
         ring1)
      | (have e1 : l = m.cooling_frequency := le_antisymm (by linarith) (by linarith)
         subst e1
         have e2 : m.synchrotron_frequency = m.cooling_frequency :=
           le_antisymm (by linarith) (by linarith)
         rw [e2]
         ring1)

/-- Claim C3: for every valid parameter bundle in either regime and every band
`lo ≤ hi` with `0 < lo` and every split point `mid` between them (including a
break frequency), the integrated flux over the two halves sums exactly to the
integrated flux over the whole band. -/
theorem integrate_band_split_additive (ms mf : Flux) (lo mid hi lo2 mid2 hi2 : ℝ)
    (hlo : 0 < lo) (h1 : lo ≤ mid) (h2 : mid ≤ hi)
    (hs : ms.synchrotron_frequency < ms.cooling_frequency)
    (glo : 0 < lo2) (g1 : lo2 ≤ mid2) (g2 : mid2 ≤ hi2)
    (gs : mf.cooling_frequency < mf.synchrotron_frequency) :
    slowIntegrate ms lo mid + slowIntegrate ms mid hi = slowIntegrate ms lo hi ∧
      fastIntegrate mf lo2 mid2 + fastIntegrate mf mid2 hi2 = fastIntegrate mf lo2 hi2 := by
  constructor
  · rw [slowIntegrate_eq_psi ms hs.le h1, slowIntegrate_eq_psi ms hs.le h2,
      slowIntegrate_eq_psi ms hs.le (h1.trans h2)]
    ring
  · rw [fastIntegrate_eq_psi mf gs.le g1, fastIntegrate_eq_psi mf gs.le g2,
      fastIntegrate_eq_psi mf gs.le (g1.trans g2)]
    ring

/-- Witness for the claim C3 theorem at concrete parameters and band. -/
theorem integrate_band_split_additive_witness :
    slowIntegrate (Flux.mk 1 4 2 3) 1 3 + slowIntegrate (Flux.mk 1 4 2 3) 3 9 =
        slowIntegrate (Flux.mk 1 4 2 3) 1 9 ∧
      fastIntegrate (Flux.mk 1 2 4 3) 1 3 + fastIntegrate (Flux.mk 1 2 4 3) 3 9 =
        fastIntegrate (Flux.mk 1 2 4 3) 1 9 :=
  integrate_band_split_additive (Flux.mk 1 4 2 3) (Flux.mk 1 2 4 3) 1 3 9 1 3 9
    (by norm_num) (by norm_num) (by norm_num) (by norm_num)
    (by norm_num) (by norm_num) (by norm_num) (by norm_num)

/-- Claim C4: a band strictly straddling both break frequencies is decomposed
into exactly the three contiguous sub-bands joined at the breaks, integrated
with the first, second and third segment integrators and summed, and the union
of the three sub-bands is the original band, in both regimes. -/
theorem integrate_straddle_both_breaks (ms mf : Flux) (lo hi lo2 hi2 : ℝ)
    (h1 : lo < ms.synchrotron_frequency)
    (h2 : ms.synchrotron_frequency < ms.cooling_frequency)
    (h3 : ms.cooling_frequency < hi)
    (g1 : lo2 < mf.cooling_frequency)
    (g2 : mf.cooling_frequency < mf.synchrotron_frequency)
    (g3 : mf.synchrotron_frequency < hi2) :
    (slowIntegrate ms lo hi =
        FluxSlowCoolingIntegrated.integrate_segment_f ms lo ms.synchrotron_frequency +
          FluxSlowCoolingIntegrated.integrate_segment_g ms ms.synchrotron_frequency
            ms.cooling_frequency +
          FluxSlowCoolingIntegrated.integrate_segment_h ms ms.cooling_frequency hi ∧
      Set.Icc lo ms.synchrotron_frequency ∪
          Set.Icc ms.synchrotron_frequency ms.cooling_frequency ∪
          Set.Icc ms.cooling_frequency hi = Set.Icc lo hi) ∧
      (fastIntegrate mf lo2 hi2 =
        FluxFastCoolingIntegrated.integrate_segment_b mf lo2 mf.cooling_frequency +
          FluxFastCoolingIntegrated.integrate_segment_c mf mf.cooling_frequency
            mf.synchrotron_frequency +
          FluxFastCoolingIntegrated.integrate_segment_d mf mf.synchrotron_frequency hi2 ∧
      Set.Icc lo2 mf.cooling_frequency ∪
          Set.Icc mf.cooling_frequency mf.synchrotron_frequency ∪
          Set.Icc mf.synchrotron_frequency hi2 = Set.Icc lo2 hi2) := by
  refine ⟨⟨?_, ?_⟩, ?_, ?_⟩
  · unfold slowIntegrate
    rw [if_neg (by linarith), if_neg (by linarith), if_pos h1]
  · rw [Set.Icc_union_Icc_eq_Icc h1.le h2.le,
      Set.Icc_union_Icc_eq_Icc (h1.le.trans h2.le) h3.le]
  · unfold fastIntegrate
    rw [if_neg (by linarith), if_neg (by linarith), if_pos g1]
  · rw [Set.Icc_union_Icc_eq_Icc g1.le g2.le,
      Set.Icc_union_Icc_eq_Icc (g1.le.trans g2.le) g3.le]

/-- Witness for the claim C4 theorem at concrete parameters and band. -/
theorem integrate_straddle_both_breaks_witness :
    (slowIntegrate (Flux.mk 1 4 2 3) 1 8 =
        FluxSlowCoolingIntegrated.integrate_segment_f (Flux.mk 1 4 2 3) 1
            (Flux.mk 1 4 2 3).synchrotron_frequency +
          FluxSlowCoolingIntegrated.integrate_segment_g (Flux.mk 1 4 2 3)
            (Flux.mk 1 4 2 3).synchrotron_frequency (Flux.mk 1 4 2 3).cooling_frequency +
          FluxSlowCoolingIntegrated.integrate_segment_h (Flux.mk 1 4 2 3)
            (Flux.mk 1 4 2 3).cooling_frequency 8 ∧
      Set.Icc 1 (Flux.mk 1 4 2 3).synchrotron_frequency ∪
          Set.Icc (Flux.mk 1 4 2 3).synchrotron_frequency (Flux.mk 1 4 2 3).cooling_frequency ∪
          Set.Icc (Flux.mk 1 4 2 3).cooling_frequency 8 = Set.Icc (1 : ℝ) 8) ∧
      (fastIntegrate (Flux.mk 1 2 4 3) 1 8 =
        FluxFastCoolingIntegrated.integrate_segment_b (Flux.mk 1 2 4 3) 1
            (Flux.mk 1 2 4 3).cooling_frequency +
          FluxFastCoolingIntegrated.integrate_segment_c (Flux.mk 1 2 4 3)
            (Flux.mk 1 2 4 3).cooling_frequency (Flux.mk 1 2 4 3).synchrotron_frequency +
          FluxFastCoolingIntegrated.integrate_segment_d (Flux.mk 1 2 4 3)
            (Flux.mk 1 2 4 3).synchrotron_frequency 8 ∧
      Set.Icc 1 (Flux.mk 1 2 4 3).cooling_frequency ∪
          Set.Icc (Flux.mk 1 2 4 3).cooling_frequency (Flux.mk 1 2 4 3).synchrotron_frequency ∪
          Set.Icc (Flux.mk 1 2 4 3).synchrotron_frequency 8 = Set.Icc (1 : ℝ) 8) :=
  integrate_straddle_both_breaks (Flux.mk 1 4 2 3) (Flux.mk 1 2 4 3) 1 8 1 8
    (by norm_num) (by norm_num) (by norm_num) (by norm_num) (by norm_num) (by norm_num)

/-- Claim C5: in both regimes the first-segment integrator returns exactly the
closed form the spec states, with the low break frequency being the
synchrotron frequency for slow cooling and the cooling frequency for fast
cooling. -/
theorem segment_one_integrator_closed_form (m : Flux) (lower upper : ℝ) :
    FluxSlowCoolingIntegrated.integrate_segment_f m lower upper =
        specSegmentOneIntegral m.peak_flux m.synchrotron_frequency lower upper ∧
      FluxFastCoolingIntegrated.integrate_segment_b m lower upper =
        specSegmentOneIntegral m.peak_flux m.cooling_frequency lower upper :=
  ⟨rfl, rfl⟩

/-- Counterexample to claim C6: constructing the parameter bundle with a
negative peak flux succeeds, rather than failing with any error. -/
theorem flux_constructor_accepts_negative_peak :
    mkFlux (-1) 1 1 (3 / 2) = .ok (Flux.mk (-1) 1 1 (3 / 2)) := rfl

/-- Claim C6 as amended: the parameter bundle constructor performs no
validation at all; it succeeds for every numeric input, positive or not,
storing the four fields unchanged. -/
theorem flux_constructor_never_fails (peak cooling synchrotron p : ℝ) :
    mkFlux peak cooling synchrotron p = .ok (Flux.mk peak cooling synchrotron p) := rfl

theorem pydiv_ok_or_zero (a b : ℝ) :
    (∃ v, pydiv a b = .ok v) ∨ pydiv a b = .error .zeroDivisionError := by
  unfold pydiv
  split_ifs <;> simp

theorem pyAdd_ok_or_zero {x y : Except PyErr ℝ}
    (hx : (∃ v, x = .ok v) ∨ x = .error .zeroDivisionError)
    (hy : (∃ v, y = .ok v) ∨ y = .error .zeroDivisionError) :
    (∃ v, pyAdd x y = .ok v) ∨ pyAdd x y = .error .zeroDivisionError := by
  rcases hx with ⟨v, rfl⟩ | rfl <;> rcases hy with ⟨w, rfl⟩ | rfl <;> simp [pyAdd]

theorem segment_fE_ok_or_zero (m : Flux) (l u : ℝ) :
    (∃ v, FluxSlowCoolingIntegrated.integrate_segment_fE m l u = .ok v) ∨
      FluxSlowCoolingIntegrated.integrate_segment_fE m l u = .error .zeroDivisionError := by
  unfold FluxSlowCoolingIntegrated.integrate_segment_fE pydiv
  split_ifs <;> simp

theorem segment_gE_ok_or_zero (m : Flux) (l u : ℝ) :
    (∃ v, FluxSlowCoolingIntegrated.integrate_segment_gE m l u = .ok v) ∨
      FluxSlowCoolingIntegrated.integrate_segment_gE m l u = .error .zeroDivisionError := by
  unfold FluxSlowCoolingIntegrated.integrate_segment_gE pydiv
  split_ifs <;> simp

theorem segment_hE_ok_or_zero (m : Flux) (l u : ℝ) :
    (∃ v, FluxSlowCoolingIntegrated.integrate_segment_hE m l u = .ok v) ∨
      FluxSlowCoolingIntegrated.integrate_segment_hE m l u = .error .zeroDivisionError := by
  unfold FluxSlowCoolingIntegrated.integrate_segment_hE pydiv
  split_ifs <;> simp

theorem segment_bE_ok_or_zero (m : Flux) (l u : ℝ) :
    (∃ v, FluxFastCoolingIntegrated.integrate_segment_bE m l u = .ok v) ∨
      FluxFastCoolingIntegrated.integrate_segment_bE m l u = .error .zeroDivisionError := by
  unfold FluxFastCoolingIntegrated.integrate_segment_bE pydiv
  split_ifs <;> simp

theorem segment_cE_ok_or_zero (m : Flux) (l u : ℝ) :
    (∃ v, FluxFastCoolingIntegrated.integrate_segment_cE m l u = .ok v) ∨
      FluxFastCoolingIntegrated.integrate_segment_cE m l u = .error .zeroDivisionError := by
  unfold FluxFastCoolingIntegrated.integrate_segment_cE pydiv
  split_ifs <;> simp

theorem segment_dE_ok_or_zero (m : Flux) (l u : ℝ) :
    (∃ v, FluxFastCoolingIntegrated.integrate_segment_dE m l u = .ok v) ∨
      FluxFastCoolingIntegrated.integrate_segment_dE m l u = .error .zeroDivisionError := by
  unfold FluxFastCoolingIntegrated.integrate_segment_dE pydiv
  split_ifs <;> simp

theorem slowIntegrateE_ok_or_zero (m : Flux) (l u : ℝ) :
    (∃ v, slowIntegrateE m l u = .ok v) ∨
      slowIntegrateE m l u = .error .zeroDivisionError := by
  unfold slowIntegrateE
  split_ifs
  · exact segment_fE_ok_or_zero m l u
  · exact pyAdd_ok_or_zero (segment_fE_ok_or_zero m l m.synchrotron_frequency)
      (segment_gE_ok_or_zero m m.synchrotron_frequency u)
  · exact segment_gE_ok_or_zero m l u
  · exact pyAdd_ok_or_zero
      (pyAdd_ok_or_zero (segment_fE_ok_or_zero m l m.synchrotron_frequency)
        (segment_gE_ok_or_zero m m.synchrotron_frequency m.cooling_frequency))
      (segment_hE_ok_or_zero m m.cooling_frequency u)
  · exact pyAdd_ok_or_zero (segment_gE_ok_or_zero m l m.cooling_frequency)
      (segment_hE_ok_or_zero m m.cooling_frequency u)
  · exact segment_hE_ok_or_zero m l u

theorem fastIntegrateE_ok_or_zero (m : Flux) (l u : ℝ) :
    (∃ v, fastIntegrateE m l u = .ok v) ∨
      fastIntegrateE m l u = .error .zeroDivisionError := by
  unfold fastIntegrateE
  split_ifs
  · exact segment_bE_ok_or_zero m l u
  · exact pyAdd_ok_or_zero (segment_bE_ok_or_zero m l m.cooling_frequency)
      (segment_cE_ok_or_zero m m.cooling_frequency u)
  · exact segment_cE_ok_or_zero m l u
  · exact pyAdd_ok_or_zero
      (pyAdd_ok_or_zero (segment_bE_ok_or_zero m l m.cooling_frequency)
        (segment_cE_ok_or_zero m m.cooling_frequency m.synchrotron_frequency))
      (segment_dE_ok_or_zero m m.synchrotron_frequency u)
  · exact pyAdd_ok_or_zero (segment_cE_ok_or_zero m l m.synchrotron_frequency)
      (segment_dE_ok_or_zero m m.synchrotron_frequency u)
  · exact segment_dE_ok_or_zero m l u

/-- Counterexample to claim C7: a band with lower bound zero is accepted, and
the integral is computed and returned, rather than failing for a non-positive
bound — through the model that keeps every Python division error. -/
theorem integrate_accepts_nonpositive_bound :
    slowIntegratedRunE [0, 1] (Flux.mk 1 4 1 3) = .ok (3 / 4) := by
  norm_num [slowIntegratedRunE, FluxSlowCoolingIntegrated.init, slowIntegrateE,
    FluxSlowCoolingIntegrated.integrate_segment_fE, pydiv, Real.one_rpow,
    Real.zero_rpow (show ((4 : ℝ) / 3) ≠ 0 by norm_num)]

/-- Claim C7 as amended: the integrated-flux operation checks only that the
two bounds are in order — it fails with the ValueError of the source, raised
at construction before any integration, precisely when the lower bound
exceeds the upper.  Bounds are never checked for positivity: any in-order
band, non-positive bounds included, is handed to the piecewise integration
as-is, which either returns the flux value or raises ZeroDivisionError (for
spectral indices degenerate on a touched segment); no interval or positivity
error is ever raised. -/
theorem integrated_run_checks_only_order (kw : Flux) (a b : ℝ) :
    (slowIntegratedRunE [a, b] kw =
        if a > b then
          .error (.valueError "Argument `bounds` was provided in reverse order.")
        else slowIntegrateE kw a b) ∧
      (fastIntegratedRunE [a, b] kw =
        if a > b then
          .error (.valueError "Argument `bounds` was provided in reverse order.")
        else fastIntegrateE kw a b) ∧
      ((∃ v, slowIntegrateE kw a b = .ok v) ∨
        slowIntegrateE kw a b = .error .zeroDivisionError) ∧
      ((∃ v, fastIntegrateE kw a b = .ok v) ∨
        fastIntegrateE kw a b = .error .zeroDivisionError) := by
  refine ⟨?_, ?_, slowIntegrateE_ok_or_zero kw a b, fastIntegrateE_ok_or_zero kw a b⟩
  · by_cases hab : a > b <;>
      simp [slowIntegratedRunE, FluxSlowCoolingIntegrated.init, hab]
  · by_cases hab : a > b <;>
      simp [fastIntegratedRunE, FluxFastCoolingIntegrated.init, hab]

/-- Counterexample to claim C8: both pointwise evaluators return the value
zero at frequency zero instead of failing on a non-positive frequency. -/
theorem spectral_flux_zero_frequency_returns_zero :
    FluxSlowCoolingSpectral.flux (Flux.mk 1 100 1 3) 0 = 0 ∧
      FluxFastCoolingSpectral.flux (Flux.mk 1 1 100 3) 0 = 0 := by
  constructor <;>
    norm_num [FluxSlowCoolingSpectral.flux, FluxFastCoolingSpectral.flux,
      slowFluxBranch1, fastFluxBranch1,
      Real.zero_rpow (show ((1 : ℝ) / 3) ≠ 0 by norm_num)]

/-- Claim C8 as amended: the pointwise evaluators perform no frequency
validation at all; whenever the low break frequency of the regime is
positive, frequency zero falls into the first branch and the value zero is
returned rather than an error being raised. -/
theorem spectral_flux_no_frequency_validation (ms mf : Flux)
    (h : 0 < ms.synchrotron_frequency) (g : 0 < mf.cooling_frequency) :
    FluxSlowCoolingSpectral.flux ms 0 = 0 ∧ FluxFastCoolingSpectral.flux mf 0 = 0 := by
  constructor
  · unfold FluxSlowCoolingSpectral.flux
    rw [if_pos h.le]
    unfold slowFluxBranch1
    rw [zero_div, Real.zero_rpow (show ((1 : ℝ) / 3) ≠ 0 by norm_num), mul_zero]
  · unfold FluxFastCoolingSpectral.flux
    rw [if_pos g.le]
    unfold fastFluxBranch1
    rw [zero_div, Real.zero_rpow (show ((1 : ℝ) / 3) ≠ 0 by norm_num), mul_zero]

/-- Witness for the claim C8 amended theorem at concrete parameters. -/
theorem spectral_flux_no_frequency_validation_witness :
    FluxSlowCoolingSpectral.flux (Flux.mk 1 4 2 3) 0 = 0 ∧
      FluxFastCoolingSpectral.flux (Flux.mk 1 2 4 3) 0 = 0 :=
  spectral_flux_no_frequency_validation (Flux.mk 1 4 2 3) (Flux.mk 1 2 4 3)
    (by norm_num) (by norm_num)

/-- Claim C10: constructing either integrated-flux object with a bounds list
whose length is not exactly two fails with the ValueError carrying the exact
source message, for any bound values. -/
theorem bounds_arity_checked (bounds : List ℝ) (kw : Flux) (h : bounds.length ≠ 2) :
    FluxSlowCoolingIntegrated.init bounds kw =
        .error (.valueError "Argument `bounds` must have exactly two elements.") ∧
      FluxFastCoolingIntegrated.init bounds kw =
        .error (.valueError "Argument `bounds` must have exactly two elements.") := by
  rcases bounds with _ | ⟨a, _ | ⟨b, _ | ⟨c, t⟩⟩⟩
  · exact ⟨rfl, rfl⟩
  · exact ⟨rfl, rfl⟩
  · simp at h
  · exact ⟨rfl, rfl⟩

/-- Witness for the claim C10 theorem on a three element bounds list. -/
theorem bounds_arity_checked_witness :
    FluxSlowCoolingIntegrated.init [1, 2, 3] (Flux.mk 1 4 2 3) =
        .error (.valueError "Argument `bounds` must have exactly two elements.") ∧
      FluxFastCoolingIntegrated.init [1, 2, 3] (Flux.mk 1 4 2 3) =
        .error (.valueError "Argument `bounds` must have exactly two elements.") :=
  bounds_arity_checked [1, 2, 3] (Flux.mk 1 4 2 3) (by simp)

/-- Claim C1 evidence: the slow cooling evaluator is discontinuous at the
synchrotron break frequency.  With peak flux one, synchrotron frequency one,
cooling frequency one hundred and spectral index three, the branch covering
frequencies at and below the break returns one at the break, while the branch
covering frequencies just above the break evaluates to one half at the break,
so the adjacent branches do not agree there. -/
theorem slow_flux_discontinuous_at_synchrotron_break :
    FluxSlowCoolingSpectral.flux (Flux.mk 1 100 1 3) 1 = 1 ∧
      slowFluxBranch2 (Flux.mk 1 100 1 3) 1 = 1 / 2 := by
  constructor
  · norm_num [FluxSlowCoolingSpectral.flux, slowFluxBranch1, Real.one_rpow]
  · norm_num [slowFluxBranch2, Real.one_rpow]

/-- Claim C2 evidence: on the middle slow cooling segment the code divides the
whole expression by two instead of dividing the exponent by two.  At frequency
four with peak flux one, synchrotron frequency one, cooling frequency one
hundred and spectral index three, the code returns one thirty-second, while
the spec formula with the division inside the exponent gives one quarter. -/
theorem slow_flux_mid_segment_precedence_bug :
    FluxSlowCoolingSpectral.flux (Flux.mk 1 100 1 3) 4 = 1 / 32 ∧
      specSlowMidFlux (Flux.mk 1 100 1 3) 4 = 1 / 4 := by
  constructor
  · unfold FluxSlowCoolingSpectral.flux slowFluxBranch2
    rw [if_neg (by norm_num), if_pos (by norm_num)]
    show (1 : ℝ) * ((4 : ℝ) / 1) ^ (-((3 : ℝ) - 1)) / 2 = 1 / 32
    rw [show ((4 : ℝ) / 1) = 4 by norm_num,
      show (-((3 : ℝ) - 1)) = ((-2 : ℤ) : ℝ) by norm_num, Real.rpow_intCast]
    norm_num
  · unfold specSlowMidFlux
    show (1 : ℝ) * ((4 : ℝ) / 1) ^ (-((3 : ℝ) - 1) / 2) = 1 / 4
    rw [show ((4 : ℝ) / 1) = 4 by norm_num,
      show (-((3 : ℝ) - 1) / 2) = ((-1 : ℤ) : ℝ) by norm_num, Real.rpow_intCast]
    norm_num

/-- Counterexample to claim C9: with spectral index exactly two the slow
cooling third segment integrator fails with the ZeroDivisionError raised by
the division itself, not with the degenerate exponent error the spec names
(no such error class exists in the source). -/
theorem segment_three_degenerate_error_class :
    FluxSlowCoolingIntegrated.integrate_segment_hE (Flux.mk 1 4 2 2) 4 8 =
        .error .zeroDivisionError ∧
      FluxSlowCoolingIntegrated.integrate_segment_hE (Flux.mk 1 4 2 2) 4 8 ≠
        .error .degenerateExponentError := by
  have h : FluxSlowCoolingIntegrated.integrate_segment_hE (Flux.mk 1 4 2 2) 4 8 =
      .error .zeroDivisionError := by
    unfold FluxSlowCoolingIntegrated.integrate_segment_hE pydiv
    rw [if_pos (show (2 : ℝ) - (Flux.mk 1 4 2 2).spectral_index = 0 by norm_num)]
  exact ⟨h, by rw [h]; simp⟩

/-- Claim C9 as amended: with spectral index exactly two, the third segment
integrator of either regime fails for every sub-band, the failure being the
ZeroDivisionError raised by evaluating 2 / (2 - spectral_index), with no
dedicated degenerate-exponent pre-check; no numeric value is returned. -/
theorem segment_three_degenerate_raises_zero_division (ms mf : Flux) (l u l2 u2 : ℝ)
    (h : ms.spectral_index = 2) (g : mf.spectral_index = 2) :
    FluxSlowCoolingIntegrated.integrate_segment_hE ms l u = .error .zeroDivisionError ∧
      FluxFastCoolingIntegrated.integrate_segment_dE mf l2 u2 = .error .zeroDivisionError := by
  constructor
  · unfold FluxSlowCoolingIntegrated.integrate_segment_hE pydiv
    rw [h, if_pos (by norm_num)]
  · unfold FluxFastCoolingIntegrated.integrate_segment_dE pydiv
    rw [g, if_pos (by norm_num)]

/-- Witness for the claim C9 amended theorem at concrete inputs. -/
theorem segment_three_degenerate_raises_zero_division_witness :
    FluxSlowCoolingIntegrated.integrate_segment_hE (Flux.mk 1 4 2 2) 5 6 =
        .error .zeroDivisionError ∧
      FluxFastCoolingIntegrated.integrate_segment_dE (Flux.mk 1 2 4 2) 5 6 =
        .error .zeroDivisionError :=
  segment_three_degenerate_raises_zero_division (Flux.mk 1 4 2 2) (Flux.mk 1 2 4 2)
    5 6 5 6 (by norm_num) (by norm_num)

end


